import Mathlib

/-!
Shallow embedding of `src/volpy/lib/gps_survey.py`: a GPS survey loader that
parses track points from a device-specific XML export into a time-indexed
table and reports summary statistics.

Modelling conventions:
* XML track-point records are modelled after what the DOM calls in
  `GpsSurvey._read_gpx` observe: `getAttribute` yields a string (empty when
  the attribute is absent, it never raises), while
  `getElementsByTagName(tag)[0].childNodes[0].data` either yields the text of
  the first nested element or raises `IndexError`; the latter is modelled by
  an `Option String` field, `none` standing for the raising case.
* `pd.to_numeric` on a single string is modelled by an executable decimal
  parser into `ℚ`; `pd.to_datetime` is modelled on ISO-8601 strings of the
  shape `YYYY-MM-DDTHH:MM:SSZ`, mapped injectively and monotonically to an
  integer; the surveyed code relies only on success/failure of the
  conversions and on the ordering of the resulting instants.
* Python exceptions are modelled by `Except PyError`; the dynamically typed
  `device` argument of the constructor is a `PyValue` (the code checks
  `type(device) != GpsDevice` at runtime and compares `self.device` with an
  enum member by `==`).
* pandas `max`/`min`/`mean` on a series, and `max`/`min` on the index, return
  NaN/NaT on an empty table instead of raising; this is modelled by `Option`
  results that are `none` exactly on the empty table, with a
  `none`-propagating subtraction for `max() - min()`.
* The file system is passed explicitly as `fs : String → Except PyError
  Document`, standing for `xml.dom.minidom.parse` on the survey path.
-/

/-- `class GpsDevice(Enum)`: an enumeration of known GPS devices; the source
defines the single member `GARMIN_MONTANA_680 = 0`. -/
inductive GpsDevice where
  | GARMIN_MONTANA_680
deriving DecidableEq

/-- A dynamically typed Python value, as far as the `device` argument of
`GpsSurvey.__init__` is concerned: either a member of the `GpsDevice`
enumeration or some value of another runtime type. -/
inductive PyValue where
  | device (d : GpsDevice)
  | int (n : Int)
  | str (s : String)
  | pyNone
deriving DecidableEq

/-- Runtime check `type(device) == GpsDevice`. -/
def PyValue.isGpsDevice : PyValue → Bool
  | .device _ => true
  | _ => false

/-- The Python exceptions the surveyed code can raise or propagate:
`TypeError` from the constructor's device check, `IOError`/`ExpatError` from
`xml.dom.minidom.parse`, and `IndexError` from indexing `[0]` into an empty
`getElementsByTagName`/`childNodes` result. -/
inductive PyError where
  | typeError
  | ioError
  | expatError
  | indexError
deriving DecidableEq

/-- One `trkpt` record as observed by `_read_gpx`: the `lat`/`lon` attribute
strings (empty string when the attribute is absent) and the text content of
the first nested `ele`/`time` element (`none` when extraction raises
`IndexError` because the element, or its text child, is missing). -/
structure TrackPoint where
  lat : String
  lon : String
  eleText : Option String
  timeText : Option String
deriving DecidableEq

/-- A parsed XML document, reduced to the list of its `trkpt` records in
document order. -/
structure Document where
  trkpts : List TrackPoint
deriving DecidableEq

/-- Digits-to-number accumulator used by the conversion models. -/
def digitsToNat (cs : List Char) : ℕ :=
  cs.foldl (fun a c => a * 10 + (c.toNat - 48)) 0

/-- Model of `pd.to_numeric` applied to one raw string: parses an optional
sign followed by a decimal literal (digits, optionally a dot and fractional
digits, at least one digit overall) into `ℚ`; any other string (including the
empty string produced by `getAttribute` on a missing attribute) raises, i.e.
yields `none`. -/
def toNumeric (s : String) : Option ℚ :=
  let cs := s.toList
  let sign : ℚ := if cs.head? = some '-' then -1 else 1
  let cs := if cs.head? = some '-' ∨ cs.head? = some '+' then cs.tail else cs
  let intPart := cs.takeWhile (·.isDigit)
  let rest := cs.dropWhile (·.isDigit)
  match rest with
  | [] =>
    if intPart.isEmpty then none
    else some (sign * (digitsToNat intPart : ℚ))
  | '.' :: frac =>
    if frac.all (·.isDigit) ∧ (¬ intPart.isEmpty ∨ ¬ frac.isEmpty) then
      some (sign * ((digitsToNat intPart : ℚ) +
        (digitsToNat frac : ℚ) / (10 : ℚ) ^ frac.length))
    else none
  | _ => none

/-- Model of `pd.to_datetime` applied to one raw string, restricted to the
ISO-8601 shape `YYYY-MM-DDTHH:MM:SSZ` emitted by the device: the instant is
encoded as an integer that is strictly monotone in the lexicographic
(date, time) order, which is all the surveyed code relies on. Any other
string raises, i.e. yields `none`. -/
def toDatetime (s : String) : Option Int :=
  match s.toList with
  | [y1, y2, y3, y4, '-', m1, m2, '-', d1, d2, 'T',
     h1, h2, ':', n1, n2, ':', s1, s2, 'Z'] =>
    if ([y1, y2, y3, y4, m1, m2, d1, d2, h1, h2, n1, n2, s1, s2].all
        (·.isDigit)) then
      let y := digitsToNat [y1, y2, y3, y4]
      let mo := digitsToNat [m1, m2]
      let d := digitsToNat [d1, d2]
      let h := digitsToNat [h1, h2]
      let mi := digitsToNat [n1, n2]
      let se := digitsToNat [s1, s2]
      if 1 ≤ mo ∧ mo ≤ 12 ∧ 1 ≤ d ∧ d ≤ 31 ∧ h < 24 ∧ mi < 60 ∧ se < 60 then
        some ((((((y * 12 + mo) * 31 + d) * 24 + h) * 60 + mi) * 60 + se : ℕ))
      else none
    else none
  | _ => none

/-- One validated sample: the tuple `(timestamp, latitude, longitude,
elevation)` appended to `points` in `_read_gpx`, with `timestamp` serving as
the index of the resulting `DataFrame`. -/
structure Sample where
  timestamp : Int
  latitude : ℚ
  longitude : ℚ
  elevation : ℚ
deriving DecidableEq

/-- The `pd.DataFrame` built by `_read_gpx`: rows in insertion (source
document) order, indexed by `timestamp`. -/
abbrev DataFrame := List Sample

/-- The `try` block of `_read_gpx`: convert the four raw fields of one record
(`pd.to_numeric` on latitude, longitude, elevation, `pd.to_datetime` on
timestamp); if every conversion succeeds the sample is produced, otherwise
the exception is caught and the record yields nothing. -/
def convertPoint (lat lon ele time : String) : Option Sample :=
  match toNumeric lat, toNumeric lon, toNumeric ele, toDatetime time with
  | some la, some lo, some el, some ts => some ⟨ts, la, lo, el⟩
  | _, _, _, _ => none

/-- The per-record extraction preceding the `try` block of `_read_gpx`:
`getAttribute` for `lat`/`lon` (total) and the `[0].childNodes[0].data`
chain for `ele`/`time`, which raises `IndexError` when the nested element is
missing — this raise is NOT inside the `try`/`except`. -/
def extractPoint (p : TrackPoint) : Except PyError (String × String × String × String) :=
  match p.eleText, p.timeText with
  | some e, some t => .ok (p.lat, p.lon, e, t)
  | _, _ => .error .indexError

/-- Extraction and conversion of one record combined, as an `Option`: the
sample retained from the record when both extraction and every conversion
succeed. Used to state which records survive parsing. -/
def recordSample (p : TrackPoint) : Option Sample :=
  match p.eleText, p.timeText with
  | some e, some t => convertPoint p.lat p.lon e t
  | _, _ => none

/-- The `for point in track_points` loop of `_read_gpx`: extraction errors
propagate (aborting the whole parse), conversion failures are caught and skip
only the offending record, and retained samples keep source order. -/
def parsePoints : List TrackPoint → Except PyError DataFrame
  | [] => .ok []
  | p :: rest =>
    match extractPoint p with
    | .error e => .error e
    | .ok (la, lo, el, ti) =>
      match parsePoints rest with
      | .error e => .error e
      | .ok tail =>
        match convertPoint la lo el ti with
        | some s => .ok (s :: tail)
        | none => .ok tail

/-- `GpsSurvey._read_gpx`: when `self.device == GpsDevice.GARMIN_MONTANA_680`
the survey path is parsed (errors from `parse` propagate), the `trkpt`
records are processed, and the resulting `DataFrame` is returned; for every
other stored device value the function returns Python `None` (modelled
`Option.none`) without touching the file and without raising. -/
def readGpx (device : PyValue) (fs : String → Except PyError Document)
    (path : String) : Except PyError (Option DataFrame) :=
  if device = PyValue.device GpsDevice.GARMIN_MONTANA_680 then
    match fs path with
    | .error e => .error e
    | .ok doc =>
      match parsePoints doc.trkpts with
      | .error e => .error e
      | .ok df => .ok (some df)
  else .ok none

/-- The `GpsSurvey` object after a successful `__init__`: `name`,
`survey_path`, `device`, and `data` (the result of `_read_gpx`, either a
`DataFrame` or Python `None`). -/
structure GpsSurvey where
  name : String
  survey_path : String
  device : PyValue
  data : Option DataFrame
deriving DecidableEq

/-- The default value of the `device` parameter of `GpsSurvey.__init__`. -/
def defaultDevice : PyValue := PyValue.device GpsDevice.GARMIN_MONTANA_680

/-- `GpsSurvey.__init__`: raises `TypeError` when `type(device) != GpsDevice`
(before anything else happens, in particular before any file access), and
otherwise stores the fields and eagerly populates `data` with the result of
`_read_gpx`, letting its exceptions propagate. -/
def GpsSurvey.init (name survey_path : String) (device : PyValue)
    (fs : String → Except PyError Document) : Except PyError GpsSurvey :=
  if device.isGpsDevice = false then .error PyError.typeError
  else
    match readGpx device fs survey_path with
    | .error e => .error e
    | .ok d => .ok ⟨name, survey_path, device, d⟩

/-- The three numeric columns of the survey table that `view_stats`
reports on. -/
inductive Column where
  | elevation
  | latitude
  | longitude
deriving DecidableEq

/-- Column access `self.data[variable]`. -/
def col (df : DataFrame) : Column → List ℚ
  | .elevation => df.map Sample.elevation
  | .latitude => df.map Sample.latitude
  | .longitude => df.map Sample.longitude

/-- pandas `Series.mean()`: NaN (modelled `none`) on an empty series, the
plain arithmetic average (sum divided by count, no filtering) otherwise. -/
def seriesMean (xs : List ℚ) : Option ℚ :=
  if xs.isEmpty then none else some (xs.sum / (xs.length : ℚ))

/-- NaN/NaT-propagating subtraction: pandas arithmetic on a missing value
yields a missing value. -/
def optSub {α : Type} [Sub α] : Option α → Option α → Option α
  | some a, some b => some (a - b)
  | _, _ => none

/-- What one `GpsSurvey._stats_print(variable, unit)` call computes:
`maximum = self.data[variable].max()`, `minimum = self.data[variable].min()`,
`range = maximum - minimum` (all NaN, modelled `none`, on an empty table). -/
structure StatLine where
  maximum : Option ℚ
  minimum : Option ℚ
  range : Option ℚ
deriving DecidableEq

/-- `GpsSurvey._stats_print`: the statistics printed for one column. -/
def stats_print (df : DataFrame) (f : Column) : StatLine :=
  let maximum := (col df f).max?
  let minimum := (col df f).min?
  ⟨maximum, minimum, optSub maximum minimum⟩

/-- Everything `GpsSurvey.view_stats` computes and prints:
`time_to_survey = self.data.index.max() - self.data.index.min()`, the row
count `self.data.shape[0]`, the elevation mean, and one `_stats_print` line
for each of elevation, latitude, longitude. -/
structure SurveyStats where
  time_to_survey : Option Int
  points : ℕ
  elevation_average : Option ℚ
  elevation_stats : StatLine
  latitude_stats : StatLine
  longitude_stats : StatLine
deriving DecidableEq

/-- `GpsSurvey.view_stats` as a function of the survey table. -/
def view_stats (df : DataFrame) : SurveyStats :=
  ⟨optSub (df.map Sample.timestamp).max? (df.map Sample.timestamp).min?,
   df.length,
   seriesMean (col df .elevation),
   stats_print df .elevation,
   stats_print df .latitude,
   stats_print df .longitude⟩

/-- A fully valid track point: elevation 100.0 at the first instant. -/
def pointA : TrackPoint :=
  ⟨"1.5", "2.5", some "100.0", some "2021-01-01T00:00:01Z"⟩

/-- A fully valid track point: elevation 150.0, four seconds later. -/
def pointB : TrackPoint :=
  ⟨"1.6", "2.6", some "150.0", some "2021-01-01T00:00:05Z"⟩

/-- A fully valid track point: elevation 120.0, four seconds after
`pointB`. -/
def pointC : TrackPoint :=
  ⟨"1.7", "2.7", some "120.0", some "2021-01-01T00:00:09Z"⟩

/-- A track point whose `ele` element is present but whose text fails numeric
conversion inside the `try` block. -/
def pointBadEle : TrackPoint :=
  ⟨"1.7", "2.7", some "abc", some "2021-01-01T00:00:09Z"⟩

/-- A track point whose `ele` element is missing entirely, so the
`getElementsByTagName('ele')[0]` extraction raises `IndexError` outside the
`try` block. -/
def pointMissingEle : TrackPoint :=
  ⟨"1.7", "2.7", none, some "2021-01-01T00:00:09Z"⟩

/-- The sample parsed from `pointA`. -/
def sampleA : Sample := ⟨64959321601, 3 / 2, 5 / 2, 100⟩

/-- The sample parsed from `pointB`. -/
def sampleB : Sample := ⟨64959321605, 8 / 5, 13 / 5, 150⟩

/-- The sample parsed from `pointC`. -/
def sampleC : Sample := ⟨64959321609, 17 / 10, 27 / 10, 120⟩

/-- A file system in which every path holds the given document. -/
def fsOf (doc : Document) : String → Except PyError Document :=
  fun _ => .ok doc

/-- A file system in which every path fails to open. -/
def fsUnreadable : String → Except PyError Document :=
  fun _ => .error .ioError

/-- The survey table holding elevations `[100.0, 150.0, 120.0]`: the samples
parsed from `pointA`, `pointB`, `pointC`. -/
def dfABC : DataFrame := [sampleA, sampleB, sampleC]

instance {α : Type} [LinearOrder α] : Std.Antisymm ((· : α) ≤ ·) :=
  ⟨fun h h' => le_antisymm h h'⟩

lemma max?_spec {α : Type} [LinearOrder α] {xs : List α} {a : α} :
    xs.max? = some a ↔ a ∈ xs ∧ ∀ b ∈ xs, b ≤ a :=
  List.max?_eq_some_iff (fun _ => le_refl _) (fun _ _ => max_choice _ _)
    (fun _ _ _ => max_le_iff)

lemma min?_spec {α : Type} [LinearOrder α] {xs : List α} {a : α} :
    xs.min? = some a ↔ a ∈ xs ∧ ∀ b ∈ xs, a ≤ b :=
  List.min?_eq_some_iff (fun _ => le_refl _) (fun _ _ => min_choice _ _)
    (fun _ _ _ => le_min_iff)

lemma perm_max? {α : Type} [LinearOrder α] {l₁ l₂ : List α} (h : l₁.Perm l₂) :
    l₁.max? = l₂.max? := by
  cases h₁ : l₁.max? with
  | none =>
    rw [List.max?_eq_none_iff] at h₁
    subst h₁
    have h2 : l₂ = [] := (List.Perm.nil_eq h).symm
    simp [h2]
  | some a =>
    rw [max?_spec] at h₁
    exact (max?_spec.mpr ⟨h.mem_iff.mp h₁.1,
      fun b hb => h₁.2 b (h.mem_iff.mpr hb)⟩).symm

lemma perm_min? {α : Type} [LinearOrder α] {l₁ l₂ : List α} (h : l₁.Perm l₂) :
    l₁.min? = l₂.min? := by
  cases h₁ : l₁.min? with
  | none =>
    rw [List.min?_eq_none_iff] at h₁
    subst h₁
    have h2 : l₂ = [] := (List.Perm.nil_eq h).symm
    simp [h2]
  | some a =>
    rw [min?_spec] at h₁
    exact (min?_spec.mpr ⟨h.mem_iff.mp h₁.1,
      fun b hb => h₁.2 b (h.mem_iff.mpr hb)⟩).symm

lemma toNumeric_lat_A : toNumeric "1.5" = some (3 / 2) := by
  simp +decide [toNumeric, digitsToNat]
  try norm_num

lemma toNumeric_lon_A : toNumeric "2.5" = some (5 / 2) := by
  simp +decide [toNumeric, digitsToNat]
  try norm_num

lemma toNumeric_ele_A : toNumeric "100.0" = some 100 := by
  simp +decide [toNumeric, digitsToNat]
  try norm_num

lemma toDatetime_A : toDatetime "2021-01-01T00:00:01Z" = some 64959321601 := by
  simp +decide [toDatetime, digitsToNat]

lemma convert_pointA :
    convertPoint "1.5" "2.5" "100.0" "2021-01-01T00:00:01Z" = some sampleA := by
  rw [convertPoint, toNumeric_lat_A, toNumeric_lon_A, toNumeric_ele_A,
    toDatetime_A]
  rfl

lemma toNumeric_lat_B : toNumeric "1.6" = some (8 / 5) := by
  simp +decide [toNumeric, digitsToNat]
  try norm_num

lemma toNumeric_lon_B : toNumeric "2.6" = some (13 / 5) := by
  simp +decide [toNumeric, digitsToNat]
  try norm_num

lemma toNumeric_ele_B : toNumeric "150.0" = some 150 := by
  simp +decide [toNumeric, digitsToNat]
  try norm_num

lemma toDatetime_B : toDatetime "2021-01-01T00:00:05Z" = some 64959321605 := by
  simp +decide [toDatetime, digitsToNat]

lemma convert_pointB :
    convertPoint "1.6" "2.6" "150.0" "2021-01-01T00:00:05Z" = some sampleB := by
  rw [convertPoint, toNumeric_lat_B, toNumeric_lon_B, toNumeric_ele_B,
    toDatetime_B]
  rfl

lemma toNumeric_lat_C : toNumeric "1.7" = some (17 / 10) := by
  simp +decide [toNumeric, digitsToNat]
  try norm_num

lemma toNumeric_lon_C : toNumeric "2.7" = some (27 / 10) := by
  simp +decide [toNumeric, digitsToNat]
  try norm_num

lemma toNumeric_ele_C : toNumeric "120.0" = some 120 := by
  simp +decide [toNumeric, digitsToNat]
  try norm_num

lemma toDatetime_C : toDatetime "2021-01-01T00:00:09Z" = some 64959321609 := by
  simp +decide [toDatetime, digitsToNat]

lemma convert_pointC :
    convertPoint "1.7" "2.7" "120.0" "2021-01-01T00:00:09Z" = some sampleC := by
  rw [convertPoint, toNumeric_lat_C, toNumeric_lon_C, toNumeric_ele_C,
    toDatetime_C]
  rfl

lemma toNumeric_bad : toNumeric "abc" = none := by
  simp +decide [toNumeric, digitsToNat]

lemma convert_pointBad :
    convertPoint "1.7" "2.7" "abc" "2021-01-01T00:00:09Z" = none := by
  rw [convertPoint, toNumeric_lat_C, toNumeric_lon_C, toNumeric_bad]

lemma parse_badEleDoc :
    parsePoints [pointA, pointB, pointBadEle] = .ok [sampleA, sampleB] := by
  simp only [parsePoints, extractPoint, pointA, pointB, pointBadEle,
    convert_pointA, convert_pointB, convert_pointBad]

lemma colABC : col dfABC .elevation = [100, 150, 120] := by
  simp [col, dfABC, sampleA, sampleB, sampleC]

lemma maxABC : (col dfABC .elevation).max? = some 150 := by
  rw [colABC]
  refine max?_spec.mpr ⟨by norm_num, ?_⟩
  intro b hb
  simp only [List.mem_cons, List.not_mem_nil, or_false] at hb
  rcases hb with h | h | h <;> norm_num [h]

lemma minABC : (col dfABC .elevation).min? = some 100 := by
  rw [colABC]
  refine min?_spec.mpr ⟨by norm_num, ?_⟩
  intro b hb
  simp only [List.mem_cons, List.not_mem_nil, or_false] at hb
  rcases hb with h | h | h <;> norm_num [h]

/-- C1, counterexample to the claim as stated: in a document with two fully
valid track points and one whose `ele` element is missing, the extraction
`getElementsByTagName('ele')[0]` raises `IndexError` OUTSIDE the
`try`/`except` of `_read_gpx`, so survey construction fails entirely rather
than succeeding with `count() == 2`. -/
theorem gps_C1_counterexample :
    GpsSurvey.init "survey" "track.gpx" defaultDevice
      (fsOf ⟨[pointA, pointB, pointMissingEle]⟩)
      = .error PyError.indexError := rfl

/-- C1, amended: in a document with two fully valid track points and one
whose `ele` element is present but whose elevation text fails numeric
conversion, survey construction succeeds, the dataset has `count() == 2`, and
the elevation extent (max 150, min 100, range 50) and elevation mean (125)
are computed only over the two valid samples; a record whose elevation
element is missing entirely instead aborts the whole parse. -/
theorem gps_C1_amended_theorem :
    GpsSurvey.init "survey" "track.gpx" defaultDevice
      (fsOf ⟨[pointA, pointB, pointBadEle]⟩)
      = .ok ⟨"survey", "track.gpx", defaultDevice, some [sampleA, sampleB]⟩ ∧
    (view_stats [sampleA, sampleB]).points = 2 ∧
    (view_stats [sampleA, sampleB]).elevation_stats
      = ⟨some 150, some 100, some 50⟩ ∧
    (view_stats [sampleA, sampleB]).elevation_average = some 125 := by
  refine ⟨?_, rfl, ?_, ?_⟩
  · simp only [GpsSurvey.init, defaultDevice, PyValue.isGpsDevice, readGpx,
      fsOf, parse_badEleDoc]
    simp
  · simp only [view_stats, stats_print, col, dfABC, List.map, sampleA, sampleB]
    have hmax : ([100, 150] : List ℚ).max? = some 150 := by
      refine max?_spec.mpr ⟨by norm_num, ?_⟩
      intro b hb
      simp only [List.mem_cons, List.not_mem_nil, or_false] at hb
      rcases hb with h | h <;> norm_num [h]
    have hmin : ([100, 150] : List ℚ).min? = some 100 := by
      refine min?_spec.mpr ⟨by norm_num, ?_⟩
      intro b hb
      simp only [List.mem_cons, List.not_mem_nil, or_false] at hb
      rcases hb with h | h <;> norm_num [h]
    rw [hmax, hmin]
    norm_num [optSub]
  · norm_num [view_stats, seriesMean, col, List.map, sampleA, sampleB]

/-- C2: for a document in which every record's four raw fields are present
(extraction succeeds everywhere), parsing succeeds and retains exactly the
records whose four conversions all succeed, in source-document order — each
record with a conversion failure is skipped individually, and the number of
retained samples equals the count of fully convertible records. -/
theorem gps_C2_per_record_skip (pts : List TrackPoint)
    (h : ∀ p ∈ pts, p.eleText ≠ none ∧ p.timeText ≠ none) :
    parsePoints pts = .ok (pts.filterMap recordSample) ∧
    (pts.filterMap recordSample).length
      = pts.countP (fun p => (recordSample p).isSome) := by
  refine ⟨?_, List.length_filterMap_eq_countP recordSample pts⟩
  induction pts with
  | nil => rfl
  | cons p rest ih =>
    have hp := h p (List.mem_cons_self p rest)
    have hrest := ih (fun q hq => h q (List.mem_cons_of_mem p hq))
    obtain ⟨e, he⟩ := Option.ne_none_iff_exists'.mp hp.1
    obtain ⟨t, ht⟩ := Option.ne_none_iff_exists'.mp hp.2
    simp only [parsePoints, extractPoint, he, ht, hrest, List.filterMap_cons,
      recordSample]
    cases hc : convertPoint p.lat p.lon e t <;> simp [hc]

/-- C2, witness: a three-record document, two fully valid records and one
whose elevation text fails conversion, parses to exactly those two samples. -/
theorem gps_C2_witness :
    (∀ p ∈ [pointA, pointB, pointBadEle],
      p.eleText ≠ none ∧ p.timeText ≠ none) ∧
    (parsePoints [pointA, pointB, pointBadEle]
        = .ok ([pointA, pointB, pointBadEle].filterMap recordSample) ∧
      ([pointA, pointB, pointBadEle].filterMap recordSample).length
        = [pointA, pointB, pointBadEle].countP
            (fun p => (recordSample p).isSome)) :=
  ⟨by decide, gps_C2_per_record_skip [pointA, pointB, pointBadEle] (by decide)⟩

/-- C3, counterexample to the claim as stated: an empty source does yield a
dataset with `count() == 0`, but the statistic queries on it do NOT report an
`EmptyDataset` error — `view_stats` completes normally and every statistic
evaluates to pandas' NaN/NaT missing value (modelled `none`); no
`EmptyDataset` error exists anywhere in the code. -/
theorem gps_C3_counterexample :
    GpsSurvey.init "survey" "track.gpx" defaultDevice (fsOf ⟨[]⟩)
      = .ok ⟨"survey", "track.gpx", defaultDevice, some []⟩ ∧
    view_stats [] = ⟨none, 0, none, ⟨none, none, none⟩, ⟨none, none, none⟩,
      ⟨none, none, none⟩⟩ :=
  ⟨rfl, rfl⟩

/-- C3, amended: a well-formed source with zero track-point records yields a
dataset with `count() == 0`, and every statistic query on that empty dataset
completes without raising, returning the NaN/NaT missing-value default
(modelled `none`) rather than reporting an `EmptyDataset` error. -/
theorem gps_C3_amended_theorem (name path : String)
    (fs : String → Except PyError Document) (h : fs path = .ok ⟨[]⟩) :
    GpsSurvey.init name path defaultDevice fs
      = .ok ⟨name, path, defaultDevice, some []⟩ ∧
    (view_stats []).points = 0 ∧
    (view_stats []).time_to_survey = none ∧
    (view_stats []).elevation_average = none ∧
    (view_stats []).elevation_stats = ⟨none, none, none⟩ ∧
    (view_stats []).latitude_stats = ⟨none, none, none⟩ ∧
    (view_stats []).longitude_stats = ⟨none, none, none⟩ := by
  refine ⟨?_, rfl, rfl, rfl, rfl, rfl, rfl⟩
  rw [GpsSurvey.init]
  simp only [defaultDevice, PyValue.isGpsDevice]
  rw [readGpx, if_pos rfl, h]
  rfl

/-- C3, witness for the amended theorem, at a concrete empty document. -/
theorem gps_C3_amended_witness :
    fsOf ⟨[]⟩ "track.gpx" = .ok ⟨[]⟩ ∧
    (GpsSurvey.init "survey" "track.gpx" defaultDevice (fsOf ⟨[]⟩)
        = .ok ⟨"survey", "track.gpx", defaultDevice, some []⟩ ∧
      (view_stats []).points = 0 ∧
      (view_stats []).time_to_survey = none ∧
      (view_stats []).elevation_average = none ∧
      (view_stats []).elevation_stats = ⟨none, none, none⟩ ∧
      (view_stats []).latitude_stats = ⟨none, none, none⟩ ∧
      (view_stats []).longitude_stats = ⟨none, none, none⟩) :=
  ⟨rfl, gps_C3_amended_theorem "survey" "track.gpx" (fsOf ⟨[]⟩) rfl⟩

/-- C4: constructing a survey with a device value whose runtime type is not
the `GpsDevice` enumeration fails with `TypeError`, and this happens before
any file access — the result is the same for EVERY file system `fs`, in
particular for one on which every read would fail. -/
theorem gps_C4_bad_device (name path : String) (device : PyValue)
    (fs : String → Except PyError Document)
    (h : device.isGpsDevice = false) :
    GpsSurvey.init name path device fs = .error PyError.typeError := by
  rw [GpsSurvey.init, h]
  rfl

/-- C4, witness: a string-valued device argument is rejected with `TypeError`
even though the file system would have failed every read. -/
theorem gps_C4_witness :
    (PyValue.str "garmin").isGpsDevice = false ∧
    GpsSurvey.init "survey" "track.gpx" (PyValue.str "garmin") fsUnreadable
      = .error PyError.typeError :=
  ⟨rfl, gps_C4_bad_device "survey" "track.gpx" (PyValue.str "garmin")
    fsUnreadable rfl⟩

/-- C5: when opening/parsing the source document fails (path missing,
unreadable, or not well-formed XML), the error propagates out of
`_read_gpx` and `__init__` unchanged — survey construction aborts entirely
and no partial survey object is produced. -/
theorem gps_C5_source_error (name path : String) (d : GpsDevice)
    (fs : String → Except PyError Document) (e : PyError)
    (h : fs path = .error e) :
    GpsSurvey.init name path (PyValue.device d) fs = .error e := by
  cases d
  rw [GpsSurvey.init]
  simp only [PyValue.isGpsDevice]
  rw [readGpx, if_pos rfl, h]
  simp

/-- C5, witness: with an unreadable source path, construction with the
default device fails with the propagated `IOError`. -/
theorem gps_C5_witness :
    fsUnreadable "track.gpx" = .error PyError.ioError ∧
    GpsSurvey.init "survey" "track.gpx"
        (PyValue.device GpsDevice.GARMIN_MONTANA_680) fsUnreadable
      = .error PyError.ioError :=
  ⟨rfl, gps_C5_source_error "survey" "track.gpx" GpsDevice.GARMIN_MONTANA_680
    fsUnreadable PyError.ioError rfl⟩

/-- C6: on every non-empty dataset, each `_stats_print` line for elevation,
latitude and longitude reports `range = maximum - minimum` with `maximum` and
`minimum` the true greatest and least column values, and the reported
elevation mean is the plain arithmetic average (column sum divided by sample
count) with no outlier filtering. -/
theorem gps_C6_extent (df : DataFrame) (h : df ≠ []) :
    (∀ f : Column, ∃ M m : ℚ,
       M ∈ col df f ∧ m ∈ col df f ∧ (∀ x ∈ col df f, m ≤ x ∧ x ≤ M) ∧
       stats_print df f = ⟨some M, some m, some (M - m)⟩) ∧
    (view_stats df).elevation_average
      = some ((col df .elevation).sum / ((col df .elevation).length : ℚ)) := by
  constructor
  · intro f
    have hne : col df f ≠ [] := by cases f <;> simp [col, h]
    have hmax : (col df f).max? ≠ none := by
      rw [Ne, List.max?_eq_none_iff]
      exact hne
    have hmin : (col df f).min? ≠ none := by
      rw [Ne, List.min?_eq_none_iff]
      exact hne
    obtain ⟨M, hM⟩ := Option.ne_none_iff_exists'.mp hmax
    obtain ⟨m, hm⟩ := Option.ne_none_iff_exists'.mp hmin
    have hMs := max?_spec.mp hM
    have hms := min?_spec.mp hm
    refine ⟨M, m, hMs.1, hms.1, fun x hx => ⟨hms.2 x hx, hMs.2 x hx⟩, ?_⟩
    simp only [stats_print, hM, hm, optSub]
  · have hne : col df .elevation ≠ [] := by simp [col, h]
    simp only [view_stats, seriesMean, List.isEmpty_iff]
    rw [if_neg hne]

/-- C6, witness: on the dataset with elevations `[100.0, 150.0, 120.0]` the
elevation extent is max 150, min 100, range 50, and the elevation mean is
`370/3 = 123.33...`. -/
theorem gps_C6_witness :
    ((∀ f : Column, ∃ M m : ℚ,
        M ∈ col dfABC f ∧ m ∈ col dfABC f ∧
        (∀ x ∈ col dfABC f, m ≤ x ∧ x ≤ M) ∧
        stats_print dfABC f = ⟨some M, some m, some (M - m)⟩) ∧
      (view_stats dfABC).elevation_average
        = some ((col dfABC .elevation).sum
            / ((col dfABC .elevation).length : ℚ))) ∧
    (view_stats dfABC).elevation_stats = ⟨some 150, some 100, some 50⟩ ∧
    (view_stats dfABC).elevation_average = some (370 / 3) := by
  refine ⟨gps_C6_extent dfABC (by simp [dfABC]), ?_, ?_⟩
  · simp only [view_stats, stats_print, maxABC, minABC]
    norm_num [optSub]
  · simp only [view_stats, colABC]
    norm_num [seriesMean]

/-- C7: on every non-empty dataset, the reported survey duration
`time_to_survey` equals `max(timestamp) - min(timestamp)` over the retained
samples, with the maximum and minimum characterised by membership and the
usual ordering bounds. -/
theorem gps_C7_time_span (df : DataFrame) (h : df ≠ []) :
    ∃ M m : Int, M ∈ df.map Sample.timestamp ∧ m ∈ df.map Sample.timestamp ∧
      (∀ t ∈ df.map Sample.timestamp, m ≤ t ∧ t ≤ M) ∧
      (view_stats df).time_to_survey = some (M - m) := by
  have hne : df.map Sample.timestamp ≠ [] := by simp [h]
  have hmax : (df.map Sample.timestamp).max? ≠ none := by
    rw [Ne, List.max?_eq_none_iff]
    exact hne
  have hmin : (df.map Sample.timestamp).min? ≠ none := by
    rw [Ne, List.min?_eq_none_iff]
    exact hne
  obtain ⟨M, hM⟩ := Option.ne_none_iff_exists'.mp hmax
  obtain ⟨m, hm⟩ := Option.ne_none_iff_exists'.mp hmin
  have hMs := max?_spec.mp hM
  have hms := min?_spec.mp hm
  refine ⟨M, m, hMs.1, hms.1, fun t ht => ⟨hms.2 t ht, hMs.2 t ht⟩, ?_⟩
  simp only [view_stats, hM, hm, optSub]

/-- C7, witness: on the two-sample dataset whose timestamps are four seconds
apart, the reported duration is 4. -/
theorem gps_C7_witness :
    (∃ M m : Int, M ∈ ([sampleA, sampleB] : DataFrame).map Sample.timestamp ∧
      m ∈ ([sampleA, sampleB] : DataFrame).map Sample.timestamp ∧
      (∀ t ∈ ([sampleA, sampleB] : DataFrame).map Sample.timestamp,
        m ≤ t ∧ t ≤ M) ∧
      (view_stats [sampleA, sampleB]).time_to_survey = some (M - m)) ∧
    (view_stats [sampleA, sampleB]).time_to_survey = some 4 :=
  ⟨gps_C7_time_span [sampleA, sampleB] (by simp), by decide⟩

/-- C8: no dataset query assumes a particular sample order — permuting the
samples leaves every `_stats_print` line (max, min, range), every column
mean, and the index maximum and minimum timestamps unchanged. -/
theorem gps_C8_order_independent (df₁ df₂ : DataFrame) (h : df₁.Perm df₂) :
    (∀ f : Column, stats_print df₁ f = stats_print df₂ f) ∧
    (∀ f : Column, seriesMean (col df₁ f) = seriesMean (col df₂ f)) ∧
    (df₁.map Sample.timestamp).max? = (df₂.map Sample.timestamp).max? ∧
    (df₁.map Sample.timestamp).min? = (df₂.map Sample.timestamp).min? := by
  have hcol : ∀ f : Column, (col df₁ f).Perm (col df₂ f) := by
    intro f
    cases f <;> exact h.map _
  refine ⟨?_, ?_, perm_max? (h.map _), perm_min? (h.map _)⟩
  · intro f
    rw [stats_print, stats_print, perm_max? (hcol f), perm_min? (hcol f)]
  · intro f
    have hlen := (hcol f).length_eq
    have hsum := (hcol f).sum_eq
    by_cases hc : col df₁ f = []
    · have hc2 : col df₂ f = [] := by
        rw [← List.length_eq_zero, ← hlen, List.length_eq_zero]
        exact hc
      simp [seriesMean, hc, hc2]
    · have hc2 : col df₂ f ≠ [] := by
        rw [Ne, ← List.length_eq_zero, ← hlen, List.length_eq_zero]
        exact hc
      simp only [seriesMean, List.isEmpty_iff]
      rw [if_neg hc, if_neg hc2, hsum, hlen]

/-- C8, witness: swapping the two samples of a dataset changes none of the
reported statistics. -/
theorem gps_C8_witness :
    ([sampleA, sampleB] : DataFrame).Perm [sampleB, sampleA] ∧
    ((∀ f : Column,
        stats_print [sampleA, sampleB] f = stats_print [sampleB, sampleA] f) ∧
      (∀ f : Column, seriesMean (col [sampleA, sampleB] f)
          = seriesMean (col [sampleB, sampleA] f)) ∧
      (([sampleA, sampleB] : DataFrame).map Sample.timestamp).max?
        = (([sampleB, sampleA] : DataFrame).map Sample.timestamp).max? ∧
      (([sampleA, sampleB] : DataFrame).map Sample.timestamp).min?
        = (([sampleB, sampleA] : DataFrame).map Sample.timestamp).min?) :=
  ⟨List.Perm.swap sampleB sampleA [],
    gps_C8_order_independent [sampleA, sampleB] [sampleB, sampleA]
      (List.Perm.swap sampleB sampleA [])⟩

/-- C9: invoked with any stored device value other than the one profile with
an extraction rule (`GARMIN_MONTANA_680`, the enumeration's sole member),
`_read_gpx` returns Python `None` — no samples — without raising and without
touching the file. -/
theorem gps_C9_unknown_profile (device : PyValue)
    (fs : String → Except PyError Document) (path : String)
    (h : device ≠ PyValue.device GpsDevice.GARMIN_MONTANA_680) :
    readGpx device fs path = .ok none := by
  rw [readGpx, if_neg h]

/-- C9, witness: with an integer device value and a file system on which
every read fails, the parser still returns `None` without raising. -/
theorem gps_C9_witness :
    PyValue.int 5 ≠ PyValue.device GpsDevice.GARMIN_MONTANA_680 ∧
    readGpx (PyValue.int 5) fsUnreadable "track.gpx" = .ok none :=
  ⟨by decide, gps_C9_unknown_profile (PyValue.int 5) fsUnreadable "track.gpx"
    (by decide)⟩

/-- C10: every survey successfully constructed through `__init__` stores an
actual table, never the parser's `None` fallback — the constructor rejects
non-`GpsDevice` values, and the sole enumeration member always takes the
defined parsing branch, so the unknown-profile `None` return of `_read_gpx`
is unreachable from the public interface. -/
theorem gps_C10_data_never_none (name path : String) (device : PyValue)
    (fs : String → Except PyError Document) (s : GpsSurvey)
    (h : GpsSurvey.init name path device fs = .ok s) :
    ∃ df : DataFrame, s.data = some df := by
  rw [GpsSurvey.init] at h
  cases hd : device.isGpsDevice with
  | false => rw [hd] at h; simp at h
  | true =>
    rw [hd] at h
    simp only [Bool.true_eq_false, if_false] at h
    obtain ⟨d⟩ | n | str | _ := device
    case int => simp [PyValue.isGpsDevice] at hd
    case str => simp [PyValue.isGpsDevice] at hd
    case pyNone => simp [PyValue.isGpsDevice] at hd
    case device =>
      cases d
      rw [readGpx, if_pos rfl] at h
      cases hfs : fs path with
      | error e => simp only [hfs] at h; exact absurd h (by simp)
      | ok doc =>
        simp only [hfs] at h
        cases hpp : parsePoints doc.trkpts with
        | error e => simp only [hpp] at h; exact absurd h (by simp)
        | ok df =>
          simp only [hpp, Except.ok.injEq] at h
          exact ⟨df, by rw [← h]⟩

/-- C10, witness: a successful construction on an empty document stores an
actual (empty) table, not `None`. -/
theorem gps_C10_witness :
    GpsSurvey.init "survey" "track.gpx" defaultDevice (fsOf ⟨[]⟩)
      = .ok ⟨"survey", "track.gpx", defaultDevice, some []⟩ ∧
    ∃ df : DataFrame,
      (GpsSurvey.mk "survey" "track.gpx" defaultDevice (some [])).data
        = some df :=
  ⟨rfl, gps_C10_data_never_none "survey" "track.gpx" defaultDevice (fsOf ⟨[]⟩)
    (GpsSurvey.mk "survey" "track.gpx" defaultDevice (some [])) rfl⟩
